import Mathlib

/-!
# Shallow embedding of the concert/event-management backend

This file embeds the route handlers of the backend (Express + Oracle SQL) as pure
Lean functions over an explicit database state, and proves the behavioural claims
about them.

Conventions of the embedding:
* A database connection's tables become lists of records inside a `Database` value;
  a handler is a function `Database → … → Response α × Database` (the returned
  `Database` is the state after any committed inserts/updates/deletes).
* Oracle sequences (`X_SEQ.NEXTVAL`) become counters inside `Database`; `NEXTVAL`
  returns `seq + 1` and stores it back.
* JavaScript truthiness on request fields is modelled explicitly: a missing or
  falsy numeric field is `0`, a missing or falsy string is `""`, optional body
  fields are `Option` values (`none` = `undefined` in the JSON body).
* `NaN` handling for the venue-capacity check uses a dedicated `JsNum` type.
* Database-side code that is not part of the JavaScript sources (stored
  procedures and views) is modelled from the spec; each such definition carries a
  doc comment beginning `Modelled from the spec:`.
-/

/-! ## Data model -/

/-- A JavaScript number as submitted in a request body: either an actual
(integer) number or `NaN` (e.g. the result of coercing a non-numeric string). -/
inductive JsNum where
  | num (v : Int)
  | nan
deriving DecidableEq, Repr

/-- JavaScript truthiness of a `JsNum`: `0` and `NaN` are falsy. -/
def JsNum.truthy : JsNum → Bool
  | .num v => v != 0
  | .nan => false

/-- `isNaN(x)` for a `JsNum`. -/
def JsNum.isNaNB : JsNum → Bool
  | .num _ => false
  | .nan => true

/-- The JavaScript comparison `x <= 0` for a `JsNum` (`NaN <= 0` is `false`). -/
def JsNum.leZero : JsNum → Bool
  | .num v => v ≤ 0
  | .nan => false

/-- Row of the `ATTENDEE` table (columns used by the auth routes). -/
structure Attendee where
  attendeeId : Nat
  name : String
  contactInfo : String
  password : String
deriving DecidableEq, Repr

/-- Row of the `CONCERTS` table.  All updatable columns are `Option`-valued
because `PUT /concerts/:id` writes `NULL` into omitted fields. -/
structure Concert where
  concertId : Nat
  name : Option String
  date : Option String
  time : Option String
  venueId : Option Nat
  artistId : Option Nat
  managerId : Option Nat
  ticketSalesLimit : Option Int
  price : Option Int
  status : Option String
  description : Option String
deriving DecidableEq, Repr

/-- Row of the `TICKETS` table.  `PURCHASE_DATE` is filled by a database-side
default that is not part of the JavaScript sources; inserts leave it `none`. -/
structure Ticket where
  ticketId : Nat
  price : Option Int
  purchaseDate : Option String
  concertId : Nat
  attendeeId : Nat
  status : String
deriving DecidableEq, Repr

/-- Row of the `FEEDBACK` table (`CREATED_DATE`, a `SYSDATE` clock value, is
omitted from the embedding). -/
structure Feedback where
  feedbackId : Nat
  concertId : Nat
  attendeeId : Nat
  rating : Int
  comments : Option String
deriving DecidableEq, Repr

/-- Row of the `VENUES` table. -/
structure Venue where
  venueId : Nat
  name : String
  location : String
  capacity : Int
  availabilitySchedule : Option String
  facilities : Option String
deriving DecidableEq, Repr

/-- Row of the `STAFF` table. -/
structure Staff where
  staffId : Nat
  name : String
  role : String
deriving DecidableEq, Repr

/-- Row of the `ARTISTS` table. -/
structure Artist where
  artistId : Nat
  name : String
  genre : String
  contactInfo : String
  availability : Option String
  socialMediaLink : Option String
  managerId : Option Nat
deriving DecidableEq, Repr

/-- Row of the `STREAMING_PLATFORMS` table; the `STREAMING_DATE` column is a
date, embedded as an integer ordinal so that `ORDER BY` is meaningful. -/
structure StreamingPlatform where
  platformId : Nat
  name : String
  url : String
  streamingDate : Int
deriving DecidableEq, Repr

/-- Row of the `SPONSORSHIPS` table (only its concert reference matters for the
summary's sponsor count). -/
structure Sponsorship where
  sponsorshipId : Nat
  name : String
  contactInfo : String
  contributionAmt : Int
  concertId : Nat
deriving DecidableEq, Repr

/-- The whole relational state a request can see, plus the Oracle sequences the
handlers draw ids from. -/
structure Database where
  attendees : List Attendee
  concerts : List Concert
  tickets : List Ticket
  feedbacks : List Feedback
  venues : List Venue
  staff : List Staff
  artists : List Artist
  streaming : List StreamingPlatform
  sponsorships : List Sponsorship
  ticketSeq : Nat
  feedbackSeq : Nat
  venueSeq : Nat
deriving DecidableEq, Repr

/-- A database with no rows, all sequences at 0. -/
def Database.empty : Database :=
  ⟨[], [], [], [], [], [], [], [], [], 0, 0, 0⟩

/-- An HTTP response as produced by a handler: a success payload with its status
code, or an error status with the JSON `message` text. -/
inductive Response (α : Type) where
  | ok (status : Nat) (body : α)
  | err (status : Nat) (message : String)
deriving DecidableEq, Repr

/-! ## Small JavaScript/SQL helpers -/

/-- Whether `pat` is a prefix of `l` (character lists). -/
def charsPrefix : List Char → List Char → Bool
  | [], _ => true
  | _ :: _, [] => false
  | a :: as, b :: bs => a == b && charsPrefix as bs

/-- Whether `pat` occurs inside `l` (character lists). -/
def charsContain (pat : List Char) : List Char → Bool
  | [] => charsPrefix pat []
  | b :: bs => charsPrefix pat (b :: bs) || charsContain pat bs

/-- JavaScript's `s.includes(pat)` on strings. -/
def strIncludes (s pat : String) : Bool :=
  charsContain pat.data s.data

/-- The SQL/JS coercion used when a nullable number appears on the right of
`>=`: `NULL` behaves as `0` in the JavaScript comparison. -/
def jsGeOpt (a : Int) (b : Option Int) : Bool :=
  a ≥ b.getD 0

/-- `x || null` for a string field of a request body: absent or empty becomes
`NULL`. -/
def orNullStr (o : Option String) : Option String :=
  o.bind fun s => if s == "" then none else some s

/-- `x || null` for a numeric-id field of a request body: absent or `0` becomes
`NULL`. -/
def orNullNat (o : Option Nat) : Option Nat :=
  o.bind fun v => if v == 0 then none else some v

/-- `x || null` for a numeric field of a request body: absent or `0` becomes
`NULL`. -/
def orNullInt (o : Option Int) : Option Int :=
  o.bind fun v => if v == 0 then none else some v

/-! ## Ticketing (`src/unnamed/part_004`, the ticket router) -/

/-- `SELECT COUNT(*) FROM TICKETS WHERE CONCERT_ID = :concertId`. -/
def soldTicketCount (db : Database) (cid : Nat) : Int :=
  ((db.tickets.filter fun t => t.concertId == cid).length : Int)

/-- The JSON shape returned for one ticket by the ticket router:
`TICKETS` joined with `CONCERTS` and `VENUES`. -/
structure TicketView where
  id : Nat
  price : Option Int
  purchaseDate : Option String
  status : String
  concertName : Option String
  concertDate : Option String
  concertTime : Option String
  venueName : String
  venueLocation : String
deriving DecidableEq, Repr

/-- The re-select after a ticket insert: `TICKETS T JOIN CONCERTS C JOIN
VENUES V WHERE T.TICKET_ID = :ticketId`.  `none` when the joins produce no row
(in the handler that surfaces as a thrown access on `undefined`, hence 500). -/
def ticketFullView (db : Database) (tid : Nat) : Option TicketView :=
  match db.tickets.find? fun t => t.ticketId == tid with
  | none => none
  | some t =>
    match db.concerts.find? fun c => c.concertId == t.concertId with
    | none => none
    | some c =>
      match c.venueId.bind fun vid => db.venues.find? fun v => v.venueId == vid with
      | none => none
      | some v =>
        some ⟨t.ticketId, t.price, t.purchaseDate, t.status,
              c.name, c.date, c.time, v.name, v.location⟩

/-- `POST /` of the ticket router (`src/unnamed/part_004`, lines 131-252):
required-field check, concert lookup with sold-ticket count, sold-out check,
sequence draw, insert, re-select of the created ticket. -/
def createTicket (db : Database) (concertId attendeeId : Nat) :
    Response TicketView × Database :=
  if concertId == 0 || attendeeId == 0 then
    (.err 400 "Concert ID and Attendee ID are required", db)
  else
    match db.concerts.find? fun c => c.concertId == concertId with
    | none => (.err 404 "Concert not found", db)
    | some c =>
      if jsGeOpt (soldTicketCount db concertId) c.ticketSalesLimit then
        (.err 400 "Sorry, this concert is sold out", db)
      else
        let ticketId := db.ticketSeq + 1
        let t : Ticket := ⟨ticketId, c.price, none, concertId, attendeeId, "ACTIVE"⟩
        let db' := { db with tickets := db.tickets ++ [t], ticketSeq := ticketId }
        match ticketFullView db' ticketId with
        | some view => (.ok 201 view, db')
        | none => (.err 500 "Failed to create ticket", db')

/-! ## Attendee registration (`src/routes/auth.js`) -/

/-- `POST /register` (`src/routes/auth.js`, lines 9-81): required-field check,
contact-uniqueness check, `NVL(MAX(ATTENDEELD), 0) + 1` id draw, insert.  The
201 body is `{id, name, contactInfo}`. -/
def registerAttendee (db : Database) (name contactInfo password : String) :
    Response (Nat × String × String) × Database :=
  if name == "" || contactInfo == "" || password == "" then
    (.err 400 "Name, contactInfo, and password are required", db)
  else if db.attendees.any fun a => a.contactInfo == contactInfo then
    (.err 409 "Contact Info already in use. Please use a different contact info.", db)
  else
    let nextId := (db.attendees.map Attendee.attendeeId).foldr Nat.max 0 + 1
    let a : Attendee := ⟨nextId, name, contactInfo, password⟩
    (.ok 201 (nextId, name, contactInfo), { db with attendees := db.attendees ++ [a] })

/-! ## Connection lifecycle traces (`src/routes/auth.js` login,
`src/routes/venues.js` create)

For the resource claim the observable is, per exit path of a handler, whether a
connection was acquired and whether it was closed by the time the response was
sent.  The pair `(acquired, closed)` is read off the control flow of the source.
-/

/-- The exit paths of `POST /login` (`src/routes/auth.js`, lines 93-130). -/
inductive LoginExit where
  | dbFault
  | invalidCredentials
  | success
deriving DecidableEq, Repr

/-- Connection accounting of `POST /login`: the handler has no `finally` block;
`connection.close()` is executed only on the straight-line path after the
`SELECT`, so a fault thrown by `connection.execute` reaches the `catch` (which
responds 500) with the connection still open. -/
def loginConnectionReport : LoginExit → Bool × Bool
  | .dbFault => (true, false)
  | .invalidCredentials => (true, true)
  | .success => (true, true)

/-- The HTTP status `POST /login` produces on each exit path. -/
def loginStatus : LoginExit → Nat
  | .dbFault => 500
  | .invalidCredentials => 401
  | .success => 200

/-- The exit paths of `POST /` in `src/routes/venues.js` (lines 71-148). -/
inductive VenueCreateExit where
  | missingFields
  | invalidCapacity
  | dbFault
  | success
deriving DecidableEq, Repr

/-- Connection accounting of the venue-create handler: the two validation
early-returns happen before `connectToDB()`, and every path that acquired the
connection runs the `finally` block, which closes it. -/
def venueCreateConnectionReport : VenueCreateExit → Bool × Bool
  | .missingFields => (false, false)
  | .invalidCapacity => (false, false)
  | .dbFault => (true, true)
  | .success => (true, true)

/-! ## Venue creation (`src/routes/venues.js`) -/

/-- The 201 body of the venue-create handler (`success: true` plus the echoed
fields). -/
structure VenueCreated where
  venueId : Nat
  name : String
  location : String
  capacity : Int
  availabilitySchedule : Option String
  facilities : Option String
deriving DecidableEq, Repr

/-- `POST /` of `src/routes/venues.js` (lines 71-148): required-field check
(JS truthiness, so capacity `0` and `NaN` are "missing"), then
`isNaN(capacity) || capacity <= 0`, then sequence draw and insert. -/
def createVenue (db : Database) (name location : String) (capacity : JsNum)
    (availabilitySchedule facilities : Option String) :
    Response VenueCreated × Database :=
  if name == "" || location == "" || !capacity.truthy then
    (.err 400 "Name, location, and capacity are required", db)
  else
    match capacity with
    | .nan => (.err 400 "Capacity must be a positive number", db)
    | .num v =>
      if v ≤ 0 then
        (.err 400 "Capacity must be a positive number", db)
      else
        let vid := db.venueSeq + 1
        let row : Venue := ⟨vid, name, location, v,
          orNullStr availabilitySchedule, orNullStr facilities⟩
        (.ok 201 ⟨vid, name, location, v, availabilitySchedule, facilities⟩,
         { db with venues := db.venues ++ [row], venueSeq := vid })

/-! ## Concert lookup and deletion (`src/routes/concerts.js`) -/

/-- Modelled from the spec: the `CONCERT_FULL_DETAILS` database view is defined
in the database schema, not under the JavaScript sources.  Per the spec it has
one row per existing concert (joining venue/artist/manager/rating data); for
the claims below only row existence and the concert's own columns matter, so a
row is represented by the concert record itself. -/
def concertFullDetailsRow (db : Database) (cid : Nat) : Option Concert :=
  db.concerts.find? fun c => c.concertId == cid

/-- `GET /:id` of `src/routes/concerts.js` (lines 97-158): select from
`CONCERT_FULL_DETAILS`, 404 when no row comes back. -/
def getConcertById (db : Database) (cid : Nat) : Response Concert :=
  match concertFullDetailsRow db cid with
  | none => .err 404 "Concert not found"
  | some c => .ok 200 c

/-- Modelled from the spec: the `DELETE_CONCERT_AND_TICKETS` stored procedure is
defined in the database schema, not under the JavaScript sources.  Per the spec
(§4.1, §8): a missing concert yields a status message the handler recognises
via `includes("not found")`; a `Completed` concert is not deleted and yields a
message recognised via `includes("Cannot delete")`; otherwise the concert and
its tickets are removed and a success message is returned. -/
def deleteConcertAndTicketsProc (db : Database) (cid : Nat) : String × Database :=
  match db.concerts.find? fun c => c.concertId == cid with
  | none => ("Concert not found", db)
  | some c =>
    if c.status == some "Completed" then
      ("Cannot delete a completed concert", db)
    else
      ("Concert and associated tickets deleted successfully",
       { db with
          concerts := db.concerts.filter fun c' => !(c'.concertId == cid),
          tickets := db.tickets.filter fun t => !(t.concertId == cid) })

/-- `DELETE /:id` of `src/routes/concerts.js` (lines 425-482): call the
procedure, then map its out-bind status text: `"not found"` → 404,
`"Cannot delete"` → 400, `"Error:"` → throw (caught as 500), otherwise
`{success: true, message}`. -/
def deleteConcert (db : Database) (cid : Nat) : Response String × Database :=
  let r := deleteConcertAndTicketsProc db cid
  if strIncludes r.1 "not found" then (.err 404 r.1, r.2)
  else if strIncludes r.1 "Cannot delete" then (.err 400 r.1, r.2)
  else if strIncludes r.1 "Error:" then (.err 500 "Failed to delete concert", r.2)
  else (.ok 200 r.1, r.2)

/-! ## Feedback creation (`src/unnamed/part_002`, the feedback router) -/

/-- The JSON shape returned for one feedback row: `FEEDBACK` joined with
`ATTENDEE` and `CONCERTS` (the `CREATED_DATE` column is clock-valued and
omitted from the embedding). -/
structure FeedbackView where
  id : Nat
  concertId : Nat
  attendeeId : Nat
  rating : Int
  comments : Option String
  attendeeName : String
  concertName : Option String
deriving DecidableEq, Repr

/-- The re-select after a feedback insert: `FEEDBACK F JOIN ATTENDEE A JOIN
CONCERTS C WHERE F.FEEDBACK_ID = :id`. -/
def feedbackFullView (db : Database) (fid : Nat) : Option FeedbackView :=
  match db.feedbacks.find? fun f => f.feedbackId == fid with
  | none => none
  | some f =>
    match db.attendees.find? fun a => a.attendeeId == f.attendeeId with
    | none => none
    | some a =>
      match db.concerts.find? fun c => c.concertId == f.concertId with
      | none => none
      | some c =>
        some ⟨f.feedbackId, f.concertId, f.attendeeId, f.rating, f.comments,
              a.name, c.name⟩

/-- The part of `POST /` of the feedback router after both validation checks
(`src/unnamed/part_002`, lines 80-158): concert-existence check (the selected
`STATUS` is never used), sequence draw, insert, re-select. -/
def insertFeedback (db : Database) (concertId attendeeId : Nat) (rating : Int)
    (comments : Option String) : Response FeedbackView × Database :=
  match db.concerts.find? fun c => c.concertId == concertId with
  | none => (.err 404 "Concert not found", db)
  | some _ =>
    let fid := db.feedbackSeq + 1
    let f : Feedback :=
      ⟨fid, concertId, attendeeId, rating, orNullStr comments⟩
    let db' := { db with feedbacks := db.feedbacks ++ [f], feedbackSeq := fid }
    match feedbackFullView db' fid with
    | some view => (.ok 201 view, db')
    | none => (.err 500 "Failed to create feedback", db')

/-- `POST /` of the feedback router (`src/unnamed/part_002`, lines 61-171):
required-field check (JS truthiness, so `rating` 0 counts as missing), rating
range check, then `insertFeedback`. -/
def createFeedback (db : Database) (concertId attendeeId : Nat) (rating : Int)
    (comments : Option String) : Response FeedbackView × Database :=
  if concertId == 0 || attendeeId == 0 || rating == 0 then
    (.err 400 "Concert ID, Attendee ID, and Rating are required", db)
  else if rating < 1 || rating > 5 then
    (.err 400 "Rating must be between 1 and 5", db)
  else
    insertFeedback db concertId attendeeId rating comments

/-! ## Concert summary (`src/routes/concerts.js`) -/

/-- The out-binds of the summary procedure, as bound by the handler. -/
structure SummaryOut where
  name : Option String
  date : Option String
  time : Option String
  price : Option Int
  ticketLimit : Int
  ticketsSold : Int
  sponsorCount : Int
  totalRevenue : Int
  isSoldOutNum : Int
deriving DecidableEq, Repr

/-- Modelled from the spec: the `GET_CONCERT_SUMMARY` stored procedure is
defined in the database schema, not under the JavaScript sources.  Per the spec
(§4.2) it returns the concert's name/date/time/price, its ticket limit, the
count of tickets sold, the sponsor count, the total revenue
(`sum(ticket.price)` over active tickets), and a sold-out flag that is `1`
exactly when `ticketsSold >= ticketLimit`; it raises a not-found error
(`errorNum` 20001, mapped to 404 by the handler) when the concert is absent. -/
def getConcertSummaryProc (db : Database) (cid : Nat) : Option SummaryOut :=
  match db.concerts.find? fun c => c.concertId == cid with
  | none => none
  | some c =>
    let sold := soldTicketCount db cid
    let lim := c.ticketSalesLimit.getD 0
    let revenue :=
      ((db.tickets.filter fun t => t.concertId == cid && t.status == "ACTIVE").map
        fun t => t.price.getD 0).sum
    let sponsors :=
      ((db.sponsorships.filter fun s => s.concertId == cid).length : Int)
    some ⟨c.name, c.date, c.time, c.price, lim, sold, sponsors, revenue,
          if sold ≥ lim then 1 else 0⟩

/-- The summary JSON built by the handler. -/
structure ConcertSummary where
  name : Option String
  date : Option String
  time : Option String
  currentPrice : Option Int
  ticketLimit : Int
  ticketsSold : Int
  sponsorCount : Int
  totalRevenue : Int
  isSoldOut : Bool
deriving DecidableEq, Repr

/-- `GET /:id/summary` of `src/routes/concerts.js` (lines 565-630): call the
procedure, then shape the out-binds; in particular
`isSoldOut: result.outBinds.isSoldOut === 1`. -/
def getConcertSummary (db : Database) (cid : Nat) : Response ConcertSummary :=
  match getConcertSummaryProc db cid with
  | none => .err 404 "Concert not found"
  | some o =>
    .ok 200 ⟨o.name, o.date, o.time, o.price, o.ticketLimit, o.ticketsSold,
             o.sponsorCount, o.totalRevenue, o.isSoldOutNum == 1⟩

/-! ## List endpoints and their `ORDER BY` semantics

`ORDER BY` is embedded as `List.insertionSort` with the comparison the SQL
clause denotes; Oracle's `DESC` puts `NULL` keys first, `ASC` puts them last.
-/

/-- Comparison denoted by `ORDER BY CONCERT_DATE DESC` (dates in `YYYY-MM-DD`
format compare chronologically as strings; `NULL` sorts first under `DESC`). -/
def concertDateDescB (a b : Concert) : Bool :=
  match a.date, b.date with
  | none, _ => true
  | some _, none => false
  | some x, some y => decide (y ≤ x)

/-- `concertDateDescB` as a relation. -/
def concertDateDesc (a b : Concert) : Prop :=
  concertDateDescB a b = true

instance : DecidableRel concertDateDesc :=
  fun a b => inferInstanceAs (Decidable (concertDateDescB a b = true))

instance : IsTotal Concert concertDateDesc := by
  constructor
  intro a b
  unfold concertDateDesc concertDateDescB
  cases a.date <;> cases b.date <;> simp
  exact le_total _ _

instance : IsTrans Concert concertDateDesc := by
  constructor
  intro a b c
  unfold concertDateDesc concertDateDescB
  cases a.date <;> cases b.date <;> cases c.date <;> simp
  exact fun h h' => le_trans h' h

/-- `GET /` of `src/routes/concerts.js` (lines 38-92):
`SELECT * FROM CONCERT_FULL_DETAILS ORDER BY CONCERT_DATE DESC`, always
answered with the (possibly empty) row list.  As with `concertFullDetailsRow`,
a view row is represented by the concert record. -/
def listConcerts (db : Database) : Response (List Concert) :=
  .ok 200 (List.insertionSort concertDateDesc db.concerts)

/-- Comparison denoted by `ORDER BY STREAMING_DATE` (ascending). -/
def streamDateLe (a b : StreamingPlatform) : Prop :=
  a.streamingDate ≤ b.streamingDate

instance : DecidableRel streamDateLe :=
  fun a b => inferInstanceAs (Decidable (a.streamingDate ≤ b.streamingDate))

instance : IsTotal StreamingPlatform streamDateLe :=
  ⟨fun a b => le_total a.streamingDate b.streamingDate⟩

instance : IsTrans StreamingPlatform streamDateLe :=
  ⟨fun _ _ _ h h' => le_trans h h'⟩

/-- `GET /` of `src/routes/streaming.js` (lines 17-48):
`SELECT … FROM STREAMING_PLATFORMS ORDER BY STREAMING_DATE`. -/
def listStreaming (db : Database) : Response (List StreamingPlatform) :=
  .ok 200 (List.insertionSort streamDateLe db.streaming)

/-- The JSON shape of one row of the artist list: `ARTISTS LEFT JOIN STAFF`. -/
structure ArtistView where
  artistId : Nat
  name : String
  genre : String
  contactInfo : String
  availability : Option String
  socialMediaLink : Option String
  managerId : Option Nat
  managerName : Option String
  managerRole : Option String
deriving DecidableEq, Repr

/-- The `LEFT JOIN STAFF S ON A.MANAGER_ID = S.STAFF_ID` row for one artist. -/
def artistViewRow (db : Database) (a : Artist) : ArtistView :=
  let mgr := a.managerId.bind fun mid => db.staff.find? fun s => s.staffId == mid
  ⟨a.artistId, a.name, a.genre, a.contactInfo, a.availability,
   a.socialMediaLink, a.managerId, mgr.map Staff.name, mgr.map Staff.role⟩

/-- Comparison denoted by `ORDER BY A.NAME` on the artist list. -/
def artistNameLe (x y : ArtistView) : Prop :=
  x.name ≤ y.name

instance : DecidableRel artistNameLe :=
  fun a b => inferInstanceAs (Decidable (a.name ≤ b.name))

instance : IsTotal ArtistView artistNameLe :=
  ⟨fun a b => le_total a.name b.name⟩

instance : IsTrans ArtistView artistNameLe :=
  ⟨fun _ _ _ h h' => le_trans h h'⟩

/-- `GET /` of `src/routes/artists.js` (lines 17-65): artists left-joined to
staff, `ORDER BY A.NAME`. -/
def listArtists (db : Database) : Response (List ArtistView) :=
  .ok 200 (List.insertionSort artistNameLe (db.artists.map (artistViewRow db)))

/-- `GET /` of `src/routes/staff.js` (lines 17-46):
`SELECT STAFF_ID, NAME, ROLE FROM STAFF` — note: no `ORDER BY` clause, the rows
come back in table order. -/
def listStaff (db : Database) : Response (List Staff) :=
  .ok 200 db.staff

/-! ## Concert update (`src/routes/concerts.js`) -/

/-- The body of a `PUT /concerts/:id` request (`none` = field absent). -/
structure UpdateConcertBody where
  name : Option String
  date : Option String
  time : Option String
  venueId : Option Nat
  artistId : Option Nat
  managerId : Option Nat
  ticketSalesLimit : Option Int
  price : Option Int
  status : Option String
  description : Option String
deriving DecidableEq, Repr

/-- The row written by the full-row `UPDATE CONCERTS SET …` statement: every
column receives `body-field || null`; only the id is kept. -/
def applyConcertUpdate (cid : Nat) (b : UpdateConcertBody) : Concert :=
  ⟨cid, orNullStr b.name, orNullStr b.date, orNullStr b.time,
   orNullNat b.venueId, orNullNat b.artistId, orNullNat b.managerId,
   orNullInt b.ticketSalesLimit, orNullInt b.price,
   orNullStr b.status, orNullStr b.description⟩

/-- The tail of the update handler once validation passed: run the `UPDATE`,
then re-select the concert from `CONCERT_FULL_DETAILS`. -/
def updateConcertApply (db : Database) (cid : Nat) (b : UpdateConcertBody) :
    Response Concert × Database :=
  let c' := applyConcertUpdate cid b
  let db' := { db with
    concerts := db.concerts.map fun c => if c.concertId == cid then c' else c }
  match concertFullDetailsRow db' cid with
  | some row => (.ok 200 row, db')
  | none => (.err 500 "Failed to update concert", db')

/-- `PUT /:id` of `src/routes/concerts.js` (lines 300-420): existence check,
`price !== undefined && price <= 0` validation, full-row `UPDATE`, re-select. -/
def updateConcert (db : Database) (cid : Nat) (b : UpdateConcertBody) :
    Response Concert × Database :=
  match db.concerts.find? fun c => c.concertId == cid with
  | none => (.err 404 "Concert not found", db)
  | some _ =>
    match b.price with
    | some p =>
      if p ≤ 0 then (.err 400 "Price must be greater than 0", db)
      else updateConcertApply db cid b
    | none => updateConcertApply db cid b

/-! ## Concrete fixtures used by witnesses and counterexamples -/

/-- A scheduled concert (id 1, limit 1, price 50) at venue 1. -/
def cFix : Concert :=
  ⟨1, some "Gala", some "2025-06-01", some "19:00", some 1, some 1, some 1,
   some 1, some 50, some "Scheduled", none⟩

/-- Venue 1. -/
def vFix : Venue := ⟨1, "Hall", "Boston", 100, none, none⟩

/-- Attendee 7. -/
def aFix : Attendee := ⟨7, "Ada", "ada@mail.com", "pw"⟩

/-- A database with one scheduled concert, its venue, and one attendee. -/
def dbFix : Database :=
  { Database.empty with
      attendees := [aFix], concerts := [cFix], venues := [vFix] }

/-! ## C2: duplicate registration -/

/-- C2: with all required fields present and `contactInfo` not yet in the
attendee table, `POST /register` inserts the attendee (id `max+1`) and answers
201 with `{id, name, contactInfo}`; a second registration with the same
`contactInfo` (any non-empty name/password) answers 409 and leaves the
attendee table unchanged. -/
theorem register_duplicate_contact_conflict (db : Database)
    (name contactInfo password : String)
    (hn : name ≠ "") (hc : contactInfo ≠ "") (hp : password ≠ "")
    (hfresh : ∀ a ∈ db.attendees, a.contactInfo ≠ contactInfo) :
    ∃ newId db₁,
      registerAttendee db name contactInfo password
        = (.ok 201 (newId, name, contactInfo), db₁) ∧
      db₁.attendees = db.attendees ++ [⟨newId, name, contactInfo, password⟩] ∧
      ∀ name₂ password₂, name₂ ≠ "" → password₂ ≠ "" →
        registerAttendee db₁ name₂ contactInfo password₂
          = (.err 409 "Contact Info already in use. Please use a different contact info.",
             db₁) := by
  have h1 : (name == "" || contactInfo == "" || password == "") = false := by
    simp [hn, hc, hp]
  have h2 : (db.attendees.any fun a => a.contactInfo == contactInfo) = false := by
    rw [List.any_eq_false]
    intro a ha
    simpa using hfresh a ha
  refine ⟨(db.attendees.map Attendee.attendeeId).foldr Nat.max 0 + 1,
    { db with attendees := db.attendees ++
        [⟨(db.attendees.map Attendee.attendeeId).foldr Nat.max 0 + 1,
          name, contactInfo, password⟩] }, ?_, rfl, ?_⟩
  · rw [registerAttendee, h1, h2]
    simp
  · intro name₂ password₂ hn2 hp2
    have h1' : (name₂ == "" || contactInfo == "" || password₂ == "") = false := by
      simp [hn2, hc, hp2]
    rw [registerAttendee, h1']
    simp [List.any_append]

/-- Witness for C2: concrete double registration against the empty database. -/
theorem register_duplicate_contact_conflict_witness :
    ∃ newId db₁,
      registerAttendee Database.empty "Ada" "ada@mail.com" "pw"
        = (.ok 201 (newId, "Ada", "ada@mail.com"), db₁) ∧
      db₁.attendees = Database.empty.attendees ++ [⟨newId, "Ada", "ada@mail.com", "pw"⟩] ∧
      ∀ name₂ password₂, name₂ ≠ "" → password₂ ≠ "" →
        registerAttendee db₁ name₂ "ada@mail.com" password₂
          = (.err 409 "Contact Info already in use. Please use a different contact info.",
             db₁) :=
  register_duplicate_contact_conflict Database.empty "Ada" "ada@mail.com" "pw"
    (by decide) (by decide) (by decide) (by intro a ha; simp [Database.empty] at ha)

/-! ## C1: ticket creation and the sold-out boundary -/

/-- C1: for a ticket-creation request naming an existing concert (with its
venue present and a recorded sales limit `L`) and an existing attendee: when
the recorded ticket count has reached `L` the handler answers the sold-out 400
and inserts nothing; when the count is below `L` it inserts exactly one ticket
and answers 201 with the joined ticket view, the count rises by one, and — in
particular when the count was `L - 1` — the next attempt for the same concert
answers the sold-out 400 and inserts nothing. -/
theorem ticket_create_sold_out_boundary (db : Database) (cid aid : Nat)
    (c : Concert) (L : Int) (vid : Nat) (v : Venue)
    (hcid : cid ≠ 0) (haid : aid ≠ 0)
    (hc : db.concerts.find? (fun c' => c'.concertId == cid) = some c)
    (hL : c.ticketSalesLimit = some L)
    (hvid : c.venueId = some vid)
    (hv : db.venues.find? (fun v' => v'.venueId == vid) = some v)
    (_hatt : ∃ a ∈ db.attendees, a.attendeeId = aid)
    (hfresh : ∀ t ∈ db.tickets, t.ticketId ≠ db.ticketSeq + 1) :
    (L ≤ soldTicketCount db cid →
      createTicket db cid aid = (.err 400 "Sorry, this concert is sold out", db)) ∧
    (soldTicketCount db cid < L →
      ∃ db',
        createTicket db cid aid =
          (.ok 201 ⟨db.ticketSeq + 1, c.price, none, "ACTIVE",
                    c.name, c.date, c.time, v.name, v.location⟩, db') ∧
        db'.tickets = db.tickets ++ [⟨db.ticketSeq + 1, c.price, none, cid, aid, "ACTIVE"⟩] ∧
        db'.concerts = db.concerts ∧
        soldTicketCount db' cid = soldTicketCount db cid + 1 ∧
        (soldTicketCount db cid = L - 1 →
          createTicket db' cid aid =
            (.err 400 "Sorry, this concert is sold out", db'))) := by
  have hreq : (cid == 0 || aid == 0) = false := by simp [hcid, haid]
  constructor
  · intro hge
    have hsold : jsGeOpt (soldTicketCount db cid) c.ticketSalesLimit = true := by
      rw [hL]
      simpa [jsGeOpt] using hge
    simp only [createTicket, hreq, Bool.false_eq_true, if_false, hc, hsold, if_true]
  · intro hlt
    have hsold : jsGeOpt (soldTicketCount db cid) c.ticketSalesLimit = false := by
      rw [hL]
      simp only [jsGeOpt, Option.getD_some, ge_iff_le, decide_eq_false_iff_not, not_le]
      exact hlt
    refine ⟨{ db with
        tickets := db.tickets ++ [⟨db.ticketSeq + 1, c.price, none, cid, aid, "ACTIVE"⟩],
        ticketSeq := db.ticketSeq + 1 }, ?_, rfl, rfl, ?_, ?_⟩
    · have hfindt : (db.tickets ++
          [(⟨db.ticketSeq + 1, c.price, none, cid, aid, "ACTIVE"⟩ : Ticket)]).find?
            (fun t => t.ticketId == db.ticketSeq + 1)
          = some ⟨db.ticketSeq + 1, c.price, none, cid, aid, "ACTIVE"⟩ := by
        rw [List.find?_append]
        have hnone : db.tickets.find? (fun t => t.ticketId == db.ticketSeq + 1) = none := by
          rw [List.find?_eq_none]
          intro x hx
          simpa using hfresh x hx
        rw [hnone]
        simp
      simp only [createTicket, hreq, Bool.false_eq_true, if_false, hc, hsold,
        ticketFullView, hfindt, hvid, Option.some_bind, Option.bind_some, hv]
    · simp only [soldTicketCount, List.filter_append]
      simp
    · intro heq
      have hcount : soldTicketCount
          { db with
            tickets := db.tickets ++ [⟨db.ticketSeq + 1, c.price, none, cid, aid, "ACTIVE"⟩],
            ticketSeq := db.ticketSeq + 1 } cid = soldTicketCount db cid + 1 := by
        simp only [soldTicketCount, List.filter_append]
        simp
      have hsold' : jsGeOpt (soldTicketCount
          { db with
            tickets := db.tickets ++ [⟨db.ticketSeq + 1, c.price, none, cid, aid, "ACTIVE"⟩],
            ticketSeq := db.ticketSeq + 1 } cid) c.ticketSalesLimit = true := by
        rw [hcount, heq, hL]
        simp [jsGeOpt]
      simp only [createTicket, hreq, Bool.false_eq_true, if_false, hc, hsold', if_true]

/-- Witness for C1: against `dbFix` (limit 1, no tickets sold) the creation
succeeds and, the limit now being reached, the next attempt is refused. -/
theorem ticket_create_sold_out_boundary_witness :
    (1 ≤ soldTicketCount dbFix 1 →
      createTicket dbFix 1 7 = (.err 400 "Sorry, this concert is sold out", dbFix)) ∧
    (soldTicketCount dbFix 1 < 1 →
      ∃ db',
        createTicket dbFix 1 7 =
          (.ok 201 ⟨dbFix.ticketSeq + 1, cFix.price, none, "ACTIVE",
                    cFix.name, cFix.date, cFix.time, vFix.name, vFix.location⟩, db') ∧
        db'.tickets = dbFix.tickets ++
          [⟨dbFix.ticketSeq + 1, cFix.price, none, 1, 7, "ACTIVE"⟩] ∧
        db'.concerts = dbFix.concerts ∧
        soldTicketCount db' 1 = soldTicketCount dbFix 1 + 1 ∧
        (soldTicketCount dbFix 1 = 1 - 1 →
          createTicket db' 1 7 =
            (.err 400 "Sorry, this concert is sold out", db'))) :=
  ticket_create_sold_out_boundary dbFix 1 7 cFix 1 1 vFix
    (by decide) (by decide) (by decide) (by decide) (by decide) (by decide)
    ⟨aFix, by decide, rfl⟩ (by intro t ht; simp [dbFix, Database.empty] at ht)

/-! ## C3: concert deletion -/

/-- The substring checks the delete handler performs on the procedure's status
text, evaluated on the three modelled messages. -/
theorem deleteStatus_includes_eval :
    strIncludes "Concert not found" "not found" = true ∧
    strIncludes "Cannot delete a completed concert" "not found" = false ∧
    strIncludes "Cannot delete a completed concert" "Cannot delete" = true ∧
    strIncludes "Concert and associated tickets deleted successfully" "not found" = false ∧
    strIncludes "Concert and associated tickets deleted successfully" "Cannot delete" = false ∧
    strIncludes "Concert and associated tickets deleted successfully" "Error:" = false := by
  decide

/-- C3: `DELETE /concerts/:id` answers 404 when the concert does not exist;
answers 400 and removes nothing when its status is `Completed`; and when its
status is `Scheduled` it answers 200, removes the concert (and its tickets),
and a subsequent `GET /concerts/:id` answers 404. -/
theorem concert_delete_status_mapping (db : Database) (cid : Nat) :
    (db.concerts.find? (fun c => c.concertId == cid) = none →
      deleteConcert db cid = (.err 404 "Concert not found", db)) ∧
    (∀ c, db.concerts.find? (fun c' => c'.concertId == cid) = some c →
      c.status = some "Completed" →
      deleteConcert db cid = (.err 400 "Cannot delete a completed concert", db)) ∧
    (∀ c, db.concerts.find? (fun c' => c'.concertId == cid) = some c →
      c.status = some "Scheduled" →
      ∃ db',
        deleteConcert db cid =
          (.ok 200 "Concert and associated tickets deleted successfully", db') ∧
        db'.concerts = db.concerts.filter (fun c' => !(c'.concertId == cid)) ∧
        db'.tickets = db.tickets.filter (fun t => !(t.concertId == cid)) ∧
        getConcertById db' cid = .err 404 "Concert not found") := by
  obtain ⟨e1, e2, e3, e4, e5, e6⟩ := deleteStatus_includes_eval
  refine ⟨?_, ?_, ?_⟩
  · intro hnone
    simp only [deleteConcert, deleteConcertAndTicketsProc, hnone, e1, if_true]
  · intro c hc hst
    have hbeq : (c.status == some "Completed") = true := by
      rw [hst]; rfl
    simp only [deleteConcert, deleteConcertAndTicketsProc, hc, hbeq, if_true,
      e2, e3, Bool.false_eq_true, if_false]
  · intro c hc hst
    have hbeq : (c.status == some "Completed") = false := by
      rw [hst]; rfl
    refine ⟨{ db with
        concerts := db.concerts.filter fun c' => !(c'.concertId == cid),
        tickets := db.tickets.filter fun t => !(t.concertId == cid) }, ?_, rfl, rfl, ?_⟩
    · simp only [deleteConcert, deleteConcertAndTicketsProc, hc, hbeq,
        Bool.false_eq_true, if_false, e4, e5, e6]
    · have hrow : concertFullDetailsRow
          { db with
            concerts := db.concerts.filter fun c' => !(c'.concertId == cid),
            tickets := db.tickets.filter fun t => !(t.concertId == cid) } cid = none := by
        simp only [concertFullDetailsRow]
        rw [List.find?_eq_none]
        intro x hx
        have := List.of_mem_filter hx
        simp at this
        simp [this]
      simp only [getConcertById, hrow]

/-- Witness for C3: deleting the scheduled concert of `dbFix` succeeds and the
subsequent get answers 404. -/
theorem concert_delete_status_mapping_witness :
    ∃ db',
      deleteConcert dbFix 1 =
        (.ok 200 "Concert and associated tickets deleted successfully", db') ∧
      db'.concerts = dbFix.concerts.filter (fun c' => !(c'.concertId == 1)) ∧
      db'.tickets = dbFix.tickets.filter (fun t => !(t.concertId == 1)) ∧
      getConcertById db' 1 = .err 404 "Concert not found" :=
  (concert_delete_status_mapping dbFix 1).2.2 cFix (by decide) (by decide)

/-! ## C4: connection release on exit paths -/

/-- C4 (code bug): on the data-access-fault exit path of `POST /login` the
handler answers 500 with the acquired connection still open — the handler has
no `finally` block, unlike the venue-create handler, whose every
connection-acquiring exit path closes the connection. -/
theorem login_fault_leaves_connection_open :
    loginStatus .dbFault = 500 ∧
    loginConnectionReport .dbFault = (true, false) ∧
    (∀ e : VenueCreateExit,
      (venueCreateConnectionReport e).1 = true →
      (venueCreateConnectionReport e).2 = true) := by
  refine ⟨rfl, rfl, ?_⟩
  intro e
  cases e <;> simp [venueCreateConnectionReport]

/-! ## C5: feedback creation and concert existence -/

/-- C5: with required fields present, a rating in `[1,5]`, and the attendee on
file, `POST /feedback` answers 404 and inserts nothing exactly when the
referenced concert is absent; when the concert exists — whatever its status —
the feedback row is appended and answered with 201. -/
theorem feedback_create_concert_existence (db : Database) (cid aid : Nat)
    (rating : Int) (comments : Option String) (a : Attendee)
    (hcid : cid ≠ 0) (haid : aid ≠ 0)
    (h1 : 1 ≤ rating) (h5 : rating ≤ 5)
    (ha : db.attendees.find? (fun a' => a'.attendeeId == aid) = some a)
    (hfresh : ∀ f ∈ db.feedbacks, f.feedbackId ≠ db.feedbackSeq + 1) :
    (db.concerts.find? (fun c => c.concertId == cid) = none →
      createFeedback db cid aid rating comments = (.err 404 "Concert not found", db)) ∧
    (∀ c, db.concerts.find? (fun c' => c'.concertId == cid) = some c →
      ∃ db',
        createFeedback db cid aid rating comments =
          (.ok 201 ⟨db.feedbackSeq + 1, cid, aid, rating, orNullStr comments,
                    a.name, c.name⟩, db') ∧
        db'.feedbacks = db.feedbacks ++
          [⟨db.feedbackSeq + 1, cid, aid, rating, orNullStr comments⟩] ∧
        db'.concerts = db.concerts) := by
  have hr0 : (rating == 0) = false := by
    simp only [beq_eq_false_iff_ne, ne_eq]
    omega
  have hreq : (cid == 0 || aid == 0 || rating == 0) = false := by
    simp [hcid, haid, hr0]
  have hrange : (rating < 1 || rating > 5) = false := by
    simp only [Bool.or_eq_false_iff, decide_eq_false_iff_not, not_lt, gt_iff_lt]
    exact ⟨h1, h5⟩
  constructor
  · intro hnone
    simp only [createFeedback, hreq, Bool.false_eq_true, if_false, hrange,
      insertFeedback, hnone]
  · intro c hc
    refine ⟨{ db with
        feedbacks := db.feedbacks ++
          [⟨db.feedbackSeq + 1, cid, aid, rating, orNullStr comments⟩],
        feedbackSeq := db.feedbackSeq + 1 }, ?_, rfl, rfl⟩
    have hfindf : (db.feedbacks ++
        [(⟨db.feedbackSeq + 1, cid, aid, rating, orNullStr comments⟩ : Feedback)]).find?
          (fun f => f.feedbackId == db.feedbackSeq + 1)
        = some ⟨db.feedbackSeq + 1, cid, aid, rating, orNullStr comments⟩ := by
      rw [List.find?_append]
      have hnone : db.feedbacks.find? (fun f => f.feedbackId == db.feedbackSeq + 1) = none := by
        rw [List.find?_eq_none]
        intro x hx
        simpa using hfresh x hx
      rw [hnone]
      simp
    simp only [createFeedback, hreq, Bool.false_eq_true, if_false, hrange,
      insertFeedback, hc, feedbackFullView, hfindf, ha]

/-- Witness for C5: concrete feedback creation against `dbFix`, whose concert
has status `Scheduled` (not `Completed`), is accepted with 201. -/
theorem feedback_create_concert_existence_witness :
    ∃ db',
      createFeedback dbFix 1 7 5 none =
        (.ok 201 ⟨dbFix.feedbackSeq + 1, 1, 7, 5, orNullStr none,
                  aFix.name, cFix.name⟩, db') ∧
      db'.feedbacks = dbFix.feedbacks ++ [⟨dbFix.feedbackSeq + 1, 1, 7, 5, orNullStr none⟩] ∧
      db'.concerts = dbFix.concerts :=
  (feedback_create_concert_existence dbFix 1 7 5 none aFix
    (by decide) (by decide) (by decide) (by decide) (by decide)
    (by intro f hf; simp [dbFix, Database.empty] at hf)).2 cFix (by decide)

/-! ## C6: summary sold-out flag -/

/-- C6: for an existing concert with recorded sales limit `L`, the summary
endpoint answers 200 and its `isSoldOut` field is exactly the boolean
`ticketsSold >= ticketLimit` (hence false at `L - 1` sold, true at `L` and
`L + 1` sold). -/
theorem concert_summary_sold_out_flag (db : Database) (cid : Nat)
    (c : Concert) (L : Int)
    (hc : db.concerts.find? (fun c' => c'.concertId == cid) = some c)
    (hL : c.ticketSalesLimit = some L) :
    ∃ s, getConcertSummary db cid = .ok 200 s ∧
      s.ticketsSold = soldTicketCount db cid ∧
      s.ticketLimit = L ∧
      s.isSoldOut = decide (L ≤ soldTicketCount db cid) := by
  simp only [getConcertSummary, getConcertSummaryProc, hc, hL, Option.getD_some]
  by_cases h : L ≤ soldTicketCount db cid
  · exact ⟨_, rfl, rfl, rfl, by simp [ge_iff_le, h]⟩
  · exact ⟨_, rfl, rfl, rfl, by simp [ge_iff_le, h]⟩

/-- One sold ticket for the fixture concert. -/
def tFix : Ticket := ⟨1, some 50, none, 1, 7, "ACTIVE"⟩

/-- `dbFix` after one ticket sale: the limit-1 concert is sold out. -/
def dbFixSold : Database := { dbFix with tickets := [tFix], ticketSeq := 1 }

/-- Witness for C6: with one ticket sold against a limit of one, the summary
reports `isSoldOut = true` (`ticketsSold = ticketLimit`). -/
theorem concert_summary_sold_out_flag_witness :
    ∃ s, getConcertSummary dbFixSold 1 = .ok 200 s ∧
      s.ticketsSold = soldTicketCount dbFixSold 1 ∧
      s.ticketLimit = 1 ∧
      s.isSoldOut = decide (1 ≤ soldTicketCount dbFixSold 1) :=
  concert_summary_sold_out_flag dbFixSold 1 cFix 1 (by decide) (by decide)

/-! ## C7: list endpoint ordering -/

/-- Two staff rows inserted in reverse name order. -/
def dbStaffFix : Database :=
  { Database.empty with staff := [⟨1, "Zed", "Tech"⟩, ⟨2, "Amy", "Sound"⟩] }

/-- Counterexample for C7 as stated: the staff list query has no `ORDER BY`
clause; on a table holding `Zed` before `Amy` the endpoint returns the rows in
table order, which is not ordered by name. -/
theorem staff_list_not_ordered_by_name :
    listStaff dbStaffFix = .ok 200 [⟨1, "Zed", "Tech"⟩, ⟨2, "Amy", "Sound"⟩] ∧
    ¬ List.Sorted (fun a b : Staff => a.name ≤ b.name)
        [⟨1, "Zed", "Tech"⟩, ⟨2, "Amy", "Sound"⟩] := by
  constructor
  · rfl
  · intro h
    have h2 := List.rel_of_sorted_cons h ⟨2, "Amy", "Sound"⟩ (by simp)
    rw [String.le_iff_toList_le] at h2
    revert h2
    decide

/-- C7 (amended): the concert list is ordered by concert date (descending),
the streaming list by streaming date, and the artist list by name; the staff
list is returned in table order (its query has no `ORDER BY`); and on empty
tables every list endpoint answers 200 with the empty list. -/
theorem list_endpoints_order_and_empty (db : Database) :
    (∃ l, listConcerts db = .ok 200 l ∧ List.Sorted concertDateDesc l) ∧
    (∃ l, listStreaming db = .ok 200 l ∧ List.Sorted streamDateLe l) ∧
    (∃ l, listArtists db = .ok 200 l ∧ List.Sorted artistNameLe l) ∧
    listStaff db = .ok 200 db.staff ∧
    (db.concerts = [] → listConcerts db = .ok 200 []) ∧
    (db.streaming = [] → listStreaming db = .ok 200 []) ∧
    (db.artists = [] → listArtists db = .ok 200 []) ∧
    (db.staff = [] → listStaff db = .ok 200 []) := by
  refine ⟨⟨_, rfl, List.sorted_insertionSort _ _⟩,
    ⟨_, rfl, List.sorted_insertionSort _ _⟩,
    ⟨_, rfl, List.sorted_insertionSort _ _⟩, rfl, ?_, ?_, ?_, ?_⟩
  all_goals intro h
  all_goals simp [listConcerts, listStreaming, listArtists, listStaff, h]

/-- Witness for C7 (amended): on the empty database every list endpoint
answers 200 with the empty list. -/
theorem list_endpoints_order_and_empty_witness :
    listConcerts Database.empty = .ok 200 [] ∧
    listStreaming Database.empty = .ok 200 [] ∧
    listArtists Database.empty = .ok 200 [] ∧
    listStaff Database.empty = .ok 200 [] :=
  ⟨(list_endpoints_order_and_empty Database.empty).2.2.2.2.1 rfl,
   (list_endpoints_order_and_empty Database.empty).2.2.2.2.2.1 rfl,
   (list_endpoints_order_and_empty Database.empty).2.2.2.2.2.2.1 rfl,
   (list_endpoints_order_and_empty Database.empty).2.2.2.2.2.2.2 rfl⟩

/-! ## C8: venue capacity validation -/

/-- C8: with name and location present, `POST /venues` rejects a capacity that
is `NaN`, zero, or negative with a 400 validation error and inserts nothing
(zero and `NaN` are falsy and already fail the required-fields check; a
negative number fails the positivity check); any positive capacity passes and
the venue is inserted and answered with 201. -/
theorem venue_capacity_validation (db : Database) (name location : String)
    (capacity : JsNum) (sched fac : Option String)
    (hn : name ≠ "") (hl : location ≠ "") :
    ((capacity = .nan ∨ ∃ v, capacity = .num v ∧ v ≤ 0) →
      ∃ m, createVenue db name location capacity sched fac = (.err 400 m, db)) ∧
    (∀ v : Int, capacity = .num v → 0 < v →
      createVenue db name location capacity sched fac =
        (.ok 201 ⟨db.venueSeq + 1, name, location, v, sched, fac⟩,
         { db with
            venues := db.venues ++
              [⟨db.venueSeq + 1, name, location, v, orNullStr sched, orNullStr fac⟩],
            venueSeq := db.venueSeq + 1 })) := by
  have hb : (name == "") = false := by simp [hn]
  have hb2 : (location == "") = false := by simp [hl]
  constructor
  · rintro (rfl | ⟨v, rfl, hv⟩)
    · exact ⟨"Name, location, and capacity are required",
        by simp [createVenue, JsNum.truthy, hb, hb2]⟩
    · by_cases h0 : v = 0
      · subst h0
        exact ⟨"Name, location, and capacity are required",
          by simp [createVenue, JsNum.truthy, hb, hb2]⟩
      · have ht : (JsNum.num v).truthy = true := by
          simp [JsNum.truthy, h0]
        exact ⟨"Capacity must be a positive number",
          by simp [createVenue, hb, hb2, ht, hv]⟩
  · intro v hcap hv
    subst hcap
    have ht : (JsNum.num v).truthy = true := by
      simp only [JsNum.truthy, bne_iff_ne, ne_eq]
      omega
    have hnle : ¬ (v ≤ 0) := by omega
    simp [createVenue, hb, hb2, ht, hnle]

/-- Witness for C8: capacity 0 is rejected against the empty database,
capacity 1 creates venue 1. -/
theorem venue_capacity_validation_witness :
    (∃ m, createVenue Database.empty "Hall" "Boston" (.num 0) none none
      = (.err 400 m, Database.empty)) ∧
    createVenue Database.empty "Hall" "Boston" (.num 1) none none =
      (.ok 201 ⟨1, "Hall", "Boston", 1, none, none⟩,
       { Database.empty with
          venues := [⟨1, "Hall", "Boston", 1, orNullStr none, orNullStr none⟩],
          venueSeq := 1 }) :=
  ⟨(venue_capacity_validation Database.empty "Hall" "Boston" (.num 0) none none
      (by decide) (by decide)).1 (Or.inr ⟨0, rfl, by decide⟩),
   (venue_capacity_validation Database.empty "Hall" "Boston" (.num 1) none none
      (by decide) (by decide)).2 1 rfl (by decide)⟩

/-! ## C9: feedback rating range -/

/-- C9: with concert and attendee ids present, any rating outside `[1,5]` is
rejected with a 400 validation error and nothing is inserted (`0` by the
required-fields check, other out-of-range values by the range check), while
any rating in `[1,5]` passes both checks — the request proceeds to the
concert-existence/insert stage unchanged. -/
theorem feedback_rating_range (db : Database) (cid aid : Nat)
    (comments : Option String) (hcid : cid ≠ 0) (haid : aid ≠ 0) :
    (∀ r : Int, r < 1 ∨ 5 < r →
      ∃ m, createFeedback db cid aid r comments = (.err 400 m, db)) ∧
    (∀ r : Int, 1 ≤ r → r ≤ 5 →
      createFeedback db cid aid r comments = insertFeedback db cid aid r comments) := by
  have hc : (cid == 0) = false := by simp [hcid]
  have ha : (aid == 0) = false := by simp [haid]
  constructor
  · intro r hr
    by_cases h0 : r = 0
    · subst h0
      exact ⟨"Concert ID, Attendee ID, and Rating are required",
        by simp [createFeedback, hc, ha]⟩
    · have hreq : (cid == 0 || aid == 0 || r == 0) = false := by
        simp [hc, ha, h0]
      have hrange : (r < 1 || r > 5) = true := by
        rcases hr with h | h
        · simp [h]
        · simp [h]
      exact ⟨"Rating must be between 1 and 5",
        by simp [createFeedback, hreq, hrange]⟩
  · intro r h1 h5
    have hreq : (cid == 0 || aid == 0 || r == 0) = false := by
      simp only [hc, ha, Bool.or_self, Bool.false_or, beq_eq_false_iff_ne, ne_eq]
      omega
    have hrange : (r < 1 || r > 5) = false := by
      simp only [Bool.or_eq_false_iff, decide_eq_false_iff_not, not_lt, gt_iff_lt]
      exact ⟨h1, h5⟩
    simp [createFeedback, hreq, hrange]

/-- Witness for C9: ratings 0 and 6 are rejected, ratings 1 and 5 pass the
validation, against `dbFix`. -/
theorem feedback_rating_range_witness :
    (∃ m, createFeedback dbFix 1 7 0 none = (.err 400 m, dbFix)) ∧
    (∃ m, createFeedback dbFix 1 7 6 none = (.err 400 m, dbFix)) ∧
    createFeedback dbFix 1 7 1 none = insertFeedback dbFix 1 7 1 none ∧
    createFeedback dbFix 1 7 5 none = insertFeedback dbFix 1 7 5 none :=
  ⟨(feedback_rating_range dbFix 1 7 none (by decide) (by decide)).1 0 (by omega),
   (feedback_rating_range dbFix 1 7 none (by decide) (by decide)).1 6 (by omega),
   (feedback_rating_range dbFix 1 7 none (by decide) (by decide)).2 1 (by omega) (by omega),
   (feedback_rating_range dbFix 1 7 none (by decide) (by decide)).2 5 (by omega) (by omega)⟩

/-! ## C10: concert update overwrite semantics -/

/-- `find?` after the full-row `UPDATE` (a map replacing the matching rows):
if the concert was found before, the updated row — whose id is unchanged — is
found after. -/
theorem find?_map_replace_concert (l : List Concert) (cid : Nat) (c c' : Concert)
    (hid : c'.concertId = cid)
    (h : l.find? (fun x => x.concertId == cid) = some c) :
    (l.map fun x => if x.concertId == cid then c' else x).find?
      (fun x => x.concertId == cid) = some c' := by
  induction l with
  | nil => simp at h
  | cons a l ih =>
    rw [List.map_cons]
    by_cases hca : (a.concertId == cid) = true
    · rw [if_pos hca]
      exact List.find?_cons_of_pos _ (by simp [hid])
    · rw [List.find?_cons_of_neg _ (by simp at hca; simp [hca])] at h
      rw [if_neg hca, List.find?_cons_of_neg _ (by simp at hca; simp [hca])]
      exact ih h

/-- A body supplying a falsy price (`0`) and a new name. -/
def updBodyFix : UpdateConcertBody :=
  ⟨some "New", none, none, none, none, none, none, some 0, none, none⟩

/-- Counterexample for C10 as stated: on the existing concert 1 of `dbFix`,
a body that supplies `price` as the falsy value `0` is not written as `NULL` —
the handler rejects the request with 400 and overwrites nothing. -/
theorem concert_update_falsy_price_counterexample :
    updateConcert dbFix 1 updBodyFix = (.err 400 "Price must be greater than 0", dbFix) ∧
    ¬ (∃ r db', updateConcert dbFix 1 updBodyFix = (.ok 200 r, db') ∧
        ∃ c, db'.concerts.find? (fun c' => c'.concertId == 1) = some c ∧
          c.price = none) := by
  have h : updateConcert dbFix 1 updBodyFix
      = (.err 400 "Price must be greater than 0", dbFix) := by rfl
  refine ⟨h, ?_⟩
  rintro ⟨r, db', heq, -⟩
  rw [h] at heq
  simp at heq

/-- C10 (amended): for an existing concert, when the body's price is either
absent or positive the handler overwrites every updatable column with
`supplied-value || null` — so omitted or falsy fields become `NULL` — keeps
only the id, and touches no other table; but a supplied non-positive price
(including the falsy `0`) is rejected with 400 and nothing is overwritten. -/
theorem concert_update_overwrites_all_columns (db : Database) (cid : Nat)
    (b : UpdateConcertBody) (c : Concert)
    (hc : db.concerts.find? (fun c' => c'.concertId == cid) = some c) :
    (∀ p, b.price = some p → p ≤ 0 →
      updateConcert db cid b = (.err 400 "Price must be greater than 0", db)) ∧
    ((b.price = none ∨ ∃ p, b.price = some p ∧ 0 < p) →
      ∃ db',
        updateConcert db cid b = (.ok 200 (applyConcertUpdate cid b), db') ∧
        db'.concerts = db.concerts.map
          (fun x => if x.concertId == cid then applyConcertUpdate cid b else x) ∧
        db'.tickets = db.tickets ∧
        db'.attendees = db.attendees ∧
        db'.venues = db.venues ∧
        applyConcertUpdate cid b =
          ⟨cid, orNullStr b.name, orNullStr b.date, orNullStr b.time,
           orNullNat b.venueId, orNullNat b.artistId, orNullNat b.managerId,
           orNullInt b.ticketSalesLimit, orNullInt b.price,
           orNullStr b.status, orNullStr b.description⟩) := by
  constructor
  · intro p hp hple
    simp only [updateConcert, hc, hp, hple, if_pos, if_true]
  · intro hpos
    have hrow : (db.concerts.map
        (fun x => if x.concertId == cid then applyConcertUpdate cid b else x)).find?
          (fun x => x.concertId == cid) = some (applyConcertUpdate cid b) :=
      find?_map_replace_concert db.concerts cid c (applyConcertUpdate cid b) rfl hc
    have hdbeq : ({ db with concerts := db.concerts.map fun x => if x.concertId == cid then applyConcertUpdate cid b else x } : Database).concerts = db.concerts.map fun x => if x.concertId == cid then applyConcertUpdate cid b else x := rfl
    rcases hpos with hp | ⟨p, hp, hppos⟩
    · refine ⟨_, ?_, hdbeq, rfl, rfl, rfl, rfl⟩
      simp only [updateConcert, hc, hp, updateConcertApply, concertFullDetailsRow, hrow]
    · have hnle : ¬ (p ≤ 0) := by omega
      refine ⟨_, ?_, hdbeq, rfl, rfl, rfl, rfl⟩
      simp only [updateConcert, hc, hp, hnle, if_false, updateConcertApply,
        concertFullDetailsRow, hrow]

/-- A body supplying only a positive price (60), all other fields omitted. -/
def updBodyPos : UpdateConcertBody :=
  ⟨none, none, none, none, none, none, none, some 60, none, none⟩

/-- Witness for C10 (amended): updating `dbFix`'s concert 1 with only a
positive price overwrites every other column with `NULL`. -/
theorem concert_update_overwrites_all_columns_witness :
    ∃ db',
      updateConcert dbFix 1 updBodyPos =
        (.ok 200 (applyConcertUpdate 1 updBodyPos), db') ∧
      db'.concerts = dbFix.concerts.map
        (fun x => if x.concertId == 1 then applyConcertUpdate 1 updBodyPos else x) ∧
      db'.tickets = dbFix.tickets ∧
      db'.attendees = dbFix.attendees ∧
      db'.venues = dbFix.venues ∧
      applyConcertUpdate 1 updBodyPos =
        ⟨1, orNullStr updBodyPos.name, orNullStr updBodyPos.date,
         orNullStr updBodyPos.time, orNullNat updBodyPos.venueId,
         orNullNat updBodyPos.artistId, orNullNat updBodyPos.managerId,
         orNullInt updBodyPos.ticketSalesLimit, orNullInt updBodyPos.price,
         orNullStr updBodyPos.status, orNullStr updBodyPos.description⟩ :=
  (concert_update_overwrites_all_columns dbFix 1 updBodyPos cFix (by decide)).2
    (Or.inr ⟨60, rfl, by omega⟩)
